import Mathlib

/-!
Shallow embedding of the selectable-list widget of `qontract-development-cli`
(`src/qontract_development_cli/tui/widgets.py`): the `ItemControl` widget,
its `EnvList` / `ProfileList` subclasses, and the operations the spec
describes (`add_items`, the `selected_index` property, `key_down`, `key_up`,
`_on_mount`, `render`, `get_content_height`).

Python-level behaviour is modelled explicitly:
  * the `_selected_index` attribute is created only by the property setter,
    so the state stores `Option (Option Int)` — the outer `none` means the
    attribute does not exist yet (reading it raises `AttributeError`);
  * Python exceptions are modelled by an `err` field of the operation
    result; mutations performed before the raise point are kept in the
    resulting state (Python does not roll back);
  * Python `%` (sign of the divisor) is modelled by `Int.fmod`;
  * Python list indexing is modelled by `pyGet` (negative indices count
    from the end, out of range raises `IndexError`).
Observable side effects (message emission via `emit_no_wait`, the scroll
requests sent to the parent viewport, `refresh`) are recorded as a list of
outputs.
-/

/-- Python exceptions that can occur in the embedded code. -/
inductive PyErr where
  | attributeError
  | typeError
  | indexError
  | zeroDivisionError
  deriving DecidableEq, Repr

/-- Python list indexing `xs[i]`: negative indices count from the end,
out-of-range raises `IndexError`. -/
def pyGet (xs : List String) (i : Int) : Except PyErr String :=
  let j : Int := if i < 0 then (xs.length : Int) + i else i
  if 0 ≤ j then
    match xs.get? j.toNat with
    | some x => Except.ok x
    | none => Except.error PyErr.indexError
  else
    Except.error PyErr.indexError

/-- `textual.geometry.clamp(value, minimum, maximum)`: swaps the bounds if
they are given in the wrong order, then clamps. -/
def clamp (value minimum maximum : Int) : Int :=
  if minimum > maximum then
    if value < maximum then maximum
    else if value > minimum then minimum
    else value
  else
    if value < minimum then minimum
    else if value > maximum then maximum
    else value

/-- The data of the parent scrollable viewport that `key_down` / `key_up`
read: `parent.content_size.height` and `parent.scroll_offset.y`. -/
structure Viewport where
  contentHeight : Int
  scrollOffsetY : Int
  deriving DecidableEq, Repr

/-- The mutable state of an `ItemControl` widget: `_items` and the
`_selected_index` attribute. `selectedIndexAttr = none` means the attribute
has not been created yet (it is not set in `__init__`); `some v` means the
attribute holds the Python value `v` (`some none` is Python `None`). -/
structure ItemControlState where
  items : List String
  selectedIndexAttr : Option (Option Int)
  deriving DecidableEq, Repr

/-- Observable side effects of one operation.  `N` is the concrete type of
the `ItemSelected` message class used by the widget (the subclasses
`EnvList` / `ProfileList` override only this nested class). -/
inductive Output (N : Type) where
  | itemSelected (msg : N)
  | scrollDown (animate : Bool)
  | scrollUp (animate : Bool)
  | refresh
  deriving DecidableEq, Repr

/-- Result of one Python-level operation: the state when the operation
returns or raises, the side effects emitted before that point, and the
exception if one was raised. -/
structure OpResult (N : Type) where
  state : ItemControlState
  outputs : List (Output N)
  err : Option PyErr
  deriving DecidableEq, Repr

namespace ItemControl

/-- `ItemControl.__init__`: `self._items = []`; `_selected_index` is NOT
created here. -/
def init : ItemControlState := { items := [], selectedIndexAttr := none }

/-- The `selected_index` property getter: returns `self._selected_index`,
raising `AttributeError` if the attribute was never assigned. -/
def selected_index (s : ItemControlState) : Except PyErr (Option Int) :=
  match s.selectedIndexAttr with
  | none => Except.error PyErr.attributeError
  | some v => Except.ok v

/-- `ItemControl._clamp_index`: `None` if `_items` is empty, otherwise
`clamp(new_index, 0, len(self._items) - 1)`. -/
def clamp_index (s : ItemControlState) (newIndex : Int) : Option Int :=
  if s.items.isEmpty then none
  else some (clamp newIndex 0 ((s.items.length : Int) - 1))

/-- The `selected_index` property setter.  `mk` builds the concrete
`ItemSelected` message (`self.ItemSelected(self, item)` dispatches on the
dynamic class, which is how `EnvList` / `ProfileList` differ).  For a
non-`None` value it stores the clamped index and, when that is not `None`,
emits `ItemSelected` for the item at the clamped index; in every path it
finally calls `self.refresh(layout=True)`. -/
def set_selected_index (mk : String → N) (s : ItemControlState)
    (newValue : Option Int) : OpResult N :=
  match newValue with
  | none => ⟨s, [Output.refresh], none⟩
  | some v =>
    let clamped := clamp_index s v
    let s' := { s with selectedIndexAttr := some clamped }
    match clamped with
    | none => ⟨s', [Output.refresh], none⟩
    | some i =>
      match pyGet s'.items i with
      | Except.error e => ⟨s', [], some e⟩
      | Except.ok item =>
        ⟨s', [Output.itemSelected (mk item), Output.refresh], none⟩

/-- `ItemControl._on_mount`: `self.selected_index = 0`. -/
def on_mount (mk : String → N) (s : ItemControlState) : OpResult N :=
  set_selected_index mk s (some 0)

/-- `ItemControl.add_items`: `self._items += items`, then if
`self.selected_index is None` (the getter can raise `AttributeError` on an
unmounted widget — after the list was already extended), assigns
`self.selected_index = 0`. -/
def add_items (mk : String → N) (s : ItemControlState)
    (newItems : List String) : OpResult N :=
  let s1 := { s with items := s.items ++ newItems }
  match s1.selectedIndexAttr with
  | none => ⟨s1, [], some PyErr.attributeError⟩
  | some (some _) => ⟨s1, [], none⟩
  | some none => set_selected_index mk s1 (some 0)

/-- `ItemControl.key_down`: `self.selected_index += 1` (getter then setter;
`None + 1` raises `TypeError`), then reads the parent viewport and issues
`self.parent.scroll_down(animate=False)` when
`(self.selected_index - self.parent.scroll_offset.y) % content_size.height
== 0`.  With no parent the expression `self.parent.scroll_offset` raises
`AttributeError`; a zero content height raises `ZeroDivisionError`. -/
def key_down (mk : String → N) (s : ItemControlState)
    (parent : Option Viewport) : OpResult N :=
  match s.selectedIndexAttr with
  | none => ⟨s, [], some PyErr.attributeError⟩
  | some none => ⟨s, [], some PyErr.typeError⟩
  | some (some i) =>
    let r := set_selected_index mk s (some (i + 1))
    match r.err with
    | some e => ⟨r.state, r.outputs, some e⟩
    | none =>
      match parent with
      | none => ⟨r.state, r.outputs, some PyErr.attributeError⟩
      | some vp =>
        match r.state.selectedIndexAttr with
        | some (some newIdx) =>
          if vp.contentHeight = 0 then
            ⟨r.state, r.outputs, some PyErr.zeroDivisionError⟩
          else if Int.fmod (newIdx - vp.scrollOffsetY) vp.contentHeight = 0 then
            ⟨r.state, r.outputs ++ [Output.scrollDown false], none⟩
          else ⟨r.state, r.outputs, none⟩
        | _ => ⟨r.state, r.outputs, some PyErr.typeError⟩

/-- `ItemControl.key_up`: `self.selected_index -= 1`, then issues
`self.parent.scroll_up(animate=False)` when
`(self.selected_index + 1 - self.parent.scroll_offset.y) %
content_size.height == 0`. -/
def key_up (mk : String → N) (s : ItemControlState)
    (parent : Option Viewport) : OpResult N :=
  match s.selectedIndexAttr with
  | none => ⟨s, [], some PyErr.attributeError⟩
  | some none => ⟨s, [], some PyErr.typeError⟩
  | some (some i) =>
    let r := set_selected_index mk s (some (i - 1))
    match r.err with
    | some e => ⟨r.state, r.outputs, some e⟩
    | none =>
      match parent with
      | none => ⟨r.state, r.outputs, some PyErr.attributeError⟩
      | some vp =>
        match r.state.selectedIndexAttr with
        | some (some newIdx) =>
          if vp.contentHeight = 0 then
            ⟨r.state, r.outputs, some PyErr.zeroDivisionError⟩
          else if Int.fmod (newIdx + 1 - vp.scrollOffsetY) vp.contentHeight = 0 then
            ⟨r.state, r.outputs ++ [Output.scrollUp false], none⟩
          else ⟨r.state, r.outputs, none⟩
        | _ => ⟨r.state, r.outputs, some PyErr.typeError⟩

/-- The data `ItemControl.render` passes to `ItemListRenderable`: the item
list and the current selection (read through the property getter, which can
raise). -/
def render (s : ItemControlState) :
    Except PyErr (List String × Option Int) :=
  match selected_index s with
  | Except.error e => Except.error e
  | Except.ok si => Except.ok (s.items, si)

/-- `ItemControl.get_content_height`:
`max(len(self._items), container.height)`. -/
def get_content_height (s : ItemControlState) (containerHeight : Int) : Int :=
  max (s.items.length : Int) containerHeight

end ItemControl

/-- `ItemControl.ItemSelected` message: carries the selected item. -/
structure ItemControlMsg where
  item : String
  deriving DecidableEq, Repr

/-- `EnvList.ItemSelected` message: carries the selected item. -/
structure EnvListMsg where
  item : String
  deriving DecidableEq, Repr

/-- `ProfileList.ItemSelected` message: carries the selected item. -/
structure ProfileListMsg where
  item : String
  deriving DecidableEq, Repr

/-- Number of `ItemSelected` emissions in an output list. -/
def countItemSelected : List (Output N) → Nat
  | [] => 0
  | Output.itemSelected _ :: rest => 1 + countItemSelected rest
  | _ :: rest => countItemSelected rest

/-- Number of non-animated scroll-down requests in an output list. -/
def countScrollDown : List (Output N) → Nat
  | [] => 0
  | Output.scrollDown false :: rest => 1 + countScrollDown rest
  | _ :: rest => countScrollDown rest

/-- Number of non-animated scroll-up requests in an output list. -/
def countScrollUp : List (Output N) → Nat
  | [] => 0
  | Output.scrollUp false :: rest => 1 + countScrollUp rest
  | _ :: rest => countScrollUp rest

/-- The state invariant the spec states for the widget: once the
`_selected_index` attribute exists, the selection is `None` exactly when the
item list is empty, and otherwise an index in `[0, count-1]`. -/
def Invariant (s : ItemControlState) : Prop :=
  if s.items.isEmpty then s.selectedIndexAttr = some none
  else ∃ i : Int, s.selectedIndexAttr = some (some i) ∧
    0 ≤ i ∧ i < (s.items.length : Int)

/-! ### Helper lemmas -/

lemma clamp_eq_max_min (v lo hi : Int) (h : lo ≤ hi) :
    clamp v lo hi = max lo (min v hi) := by
  unfold clamp
  split_ifs <;> omega

lemma clamp_bounds (v lo hi : Int) (h : lo ≤ hi) :
    lo ≤ clamp v lo hi ∧ clamp v lo hi ≤ hi := by
  rw [clamp_eq_max_min v lo hi h]
  omega

lemma clamp_index_nonempty (s : ItemControlState) (v : Int)
    (hne : s.items ≠ []) :
    ItemControl.clamp_index s v
      = some (clamp v 0 ((s.items.length : Int) - 1)) := by
  unfold ItemControl.clamp_index
  simp [List.isEmpty_iff, hne]

lemma pyGet_ok (xs : List String) (c : Int) (hc0 : 0 ≤ c)
    (hcn : c < (xs.length : Int)) :
    ∃ item, xs.get? c.toNat = some item ∧ pyGet xs c = Except.ok item := by
  have hlt : c.toNat < xs.length := by omega
  obtain ⟨item, hitem⟩ : ∃ it, xs.get? c.toNat = some it :=
    ⟨_, List.get?_eq_get hlt⟩
  refine ⟨item, hitem, ?_⟩
  unfold pyGet
  have hneg : ¬ c < 0 := by omega
  simp only [hneg, if_false, if_pos hc0, hitem]

/-- On a non-empty list, assigning any integer through the
`selected_index` setter stores the clamped index and emits exactly the
`ItemSelected` message for the item at that index, followed by a refresh. -/
lemma set_selected_index_nonempty {N : Type} (mk : String → N)
    (s : ItemControlState) (v : Int) (hne : s.items ≠ []) :
    ∃ c item,
      ItemControl.clamp_index s v = some c ∧
      0 ≤ c ∧ c < (s.items.length : Int) ∧
      s.items.get? c.toNat = some item ∧
      ItemControl.set_selected_index mk s (some v)
        = ⟨{ s with selectedIndexAttr := some (some c) },
           [Output.itemSelected (mk item), Output.refresh], none⟩ := by
  have hlen : 0 < s.items.length := List.length_pos.mpr hne
  have hle : (0 : Int) ≤ (s.items.length : Int) - 1 := by omega
  have hb := clamp_bounds v 0 ((s.items.length : Int) - 1) hle
  set c := clamp v 0 ((s.items.length : Int) - 1) with hcdef
  have hc : ItemControl.clamp_index s v = some c := clamp_index_nonempty s v hne
  obtain ⟨item, hitem, hpy⟩ := pyGet_ok s.items c hb.1 (by omega)
  refine ⟨c, item, hc, hb.1, by omega, hitem, ?_⟩
  unfold ItemControl.set_selected_index
  simp only [hc, hpy]

/-- The state reached by the setter for a non-`None` value, in full
generality (empty list included, error paths included). -/
lemma set_selected_index_state {N : Type} (mk : String → N)
    (s : ItemControlState) (v : Int) :
    (ItemControl.set_selected_index mk s (some v)).state
      = { s with selectedIndexAttr := some (ItemControl.clamp_index s v) } := by
  unfold ItemControl.set_selected_index
  cases hc : ItemControl.clamp_index s v with
  | none => simp [hc]
  | some c =>
    cases hp : pyGet s.items c <;> simp [hc, hp]

/-- `key_down` with a current integer selection always leaves the state at
the clamped incremented index, whatever else happens afterwards. -/
lemma key_down_state {N : Type} (mk : String → N) (s : ItemControlState)
    (i : Int) (parent : Option Viewport)
    (hsel : s.selectedIndexAttr = some (some i)) :
    (ItemControl.key_down mk s parent).state
      = { s with selectedIndexAttr := some (ItemControl.clamp_index s (i + 1)) } := by
  have hst := set_selected_index_state mk s (i + 1)
  unfold ItemControl.key_down
  rw [hsel]
  dsimp only
  split
  · simpa using hst
  · split
    · simpa using hst
    · split
      · split
        · simpa using hst
        · split
          · simpa using hst
          · simpa using hst
      · simpa using hst

/-- Full characterisation of `key_down` on a non-empty list with a parent
viewport of non-zero content height: the selection becomes the clamped
incremented index, one `ItemSelected` message and one refresh are emitted,
and a single non-animated scroll-down request is appended exactly when
`(new_index - scroll_offset) % content_height == 0`. -/
lemma key_down_nonempty {N : Type} (mk : String → N) (s : ItemControlState)
    (i : Int) (vp : Viewport) (hne : s.items ≠ [])
    (hsel : s.selectedIndexAttr = some (some i))
    (hh : vp.contentHeight ≠ 0) :
    ∃ c item,
      ItemControl.clamp_index s (i + 1) = some c ∧
      s.items.get? c.toNat = some item ∧
      ItemControl.key_down mk s (some vp)
        = ⟨{ s with selectedIndexAttr := some (some c) },
           [Output.itemSelected (mk item), Output.refresh]
             ++ (if Int.fmod (c - vp.scrollOffsetY) vp.contentHeight = 0
                 then [Output.scrollDown false] else []),
           none⟩ := by
  obtain ⟨c, item, hc, hc0, hcn, hitem, hset⟩ :=
    set_selected_index_nonempty mk s (i + 1) hne
  refine ⟨c, item, hc, hitem, ?_⟩
  unfold ItemControl.key_down
  rw [hsel]
  dsimp only
  rw [hset]
  simp only [hh, if_false]
  split <;> simp

/-- Full characterisation of `key_up` on a non-empty list with a parent
viewport of non-zero content height. -/
lemma key_up_nonempty {N : Type} (mk : String → N) (s : ItemControlState)
    (i : Int) (vp : Viewport) (hne : s.items ≠ [])
    (hsel : s.selectedIndexAttr = some (some i))
    (hh : vp.contentHeight ≠ 0) :
    ∃ c item,
      ItemControl.clamp_index s (i - 1) = some c ∧
      s.items.get? c.toNat = some item ∧
      ItemControl.key_up mk s (some vp)
        = ⟨{ s with selectedIndexAttr := some (some c) },
           [Output.itemSelected (mk item), Output.refresh]
             ++ (if Int.fmod (c + 1 - vp.scrollOffsetY) vp.contentHeight = 0
                 then [Output.scrollUp false] else []),
           none⟩ := by
  obtain ⟨c, item, hc, hc0, hcn, hitem, hset⟩ :=
    set_selected_index_nonempty mk s (i - 1) hne
  refine ⟨c, item, hc, hitem, ?_⟩
  unfold ItemControl.key_up
  rw [hsel]
  dsimp only
  rw [hset]
  simp only [hh, if_false]
  split <;> simp

lemma countScrollDown_append {N : Type} (xs ys : List (Output N)) :
    countScrollDown (xs ++ ys) = countScrollDown xs + countScrollDown ys := by
  induction xs with
  | nil => simp [countScrollDown]
  | cons x xs ih =>
    cases x with
    | itemSelected m => simp [countScrollDown, ih]
    | scrollDown a => cases a <;> simp [countScrollDown, ih] <;> omega
    | scrollUp a => simp [countScrollDown, ih]
    | refresh => simp [countScrollDown, ih]

lemma countScrollUp_append {N : Type} (xs ys : List (Output N)) :
    countScrollUp (xs ++ ys) = countScrollUp xs + countScrollUp ys := by
  induction xs with
  | nil => simp [countScrollUp]
  | cons x xs ih =>
    cases x with
    | itemSelected m => simp [countScrollUp, ih]
    | scrollDown a => simp [countScrollUp, ih]
    | scrollUp a => cases a <;> simp [countScrollUp, ih] <;> omega
    | refresh => simp [countScrollUp, ih]

/-- `key_up` with a current integer selection always leaves the state at
the clamped decremented index. -/
lemma key_up_state {N : Type} (mk : String → N) (s : ItemControlState)
    (i : Int) (parent : Option Viewport)
    (hsel : s.selectedIndexAttr = some (some i)) :
    (ItemControl.key_up mk s parent).state
      = { s with selectedIndexAttr := some (ItemControl.clamp_index s (i - 1)) } := by
  have hst := set_selected_index_state mk s (i - 1)
  unfold ItemControl.key_up
  rw [hsel]
  dsimp only
  split
  · simpa using hst
  · split
    · simpa using hst
    · split
      · split
        · simpa using hst
        · split
          · simpa using hst
          · simpa using hst
      · simpa using hst

/-! ### Claims -/

/-- C1: the spec claims that for an `ItemControl` with an empty item list
(selection `None`), `key_down` and `key_up` are safe no-ops that raise no
error.  In the code `self.selected_index += 1` evaluates `None + 1`, which
raises `TypeError`: the theorem evaluates both handlers on the mounted
empty-list state and shows they raise `TypeError` (selection stays `None`
and nothing is emitted only because the exception aborts the handler). -/
theorem C1_empty_list_key_raises_TypeError :
    ItemControl.key_down ItemControlMsg.mk ⟨[], some none⟩ (some ⟨5, 0⟩)
      = ⟨⟨[], some none⟩, [], some PyErr.typeError⟩ ∧
    ItemControl.key_up ItemControlMsg.mk ⟨[], some none⟩ (some ⟨5, 0⟩)
      = ⟨⟨[], some none⟩, [], some PyErr.typeError⟩ := by
  constructor <;> rfl

/-- C2 counterexample: with items `["a"]` and current selection `0`,
assigning `0` clamps to `0`, equal to the previous selection, yet one
`ItemSelected` notification is still emitted — refuting "no notification
when the clamped result equals the current selection". -/
theorem C2_counterexample :
    (⟨["a"], some (some 0)⟩ : ItemControlState).selectedIndexAttr
        = some (some 0) ∧
    ItemControl.clamp_index ⟨["a"], some (some 0)⟩ 0 = some 0 ∧
    countItemSelected
      (ItemControl.set_selected_index ItemControlMsg.mk
        ⟨["a"], some (some 0)⟩ (some 0)).outputs = 1 := by
  refine ⟨rfl, ?_, ?_⟩ <;> rfl

/-- C2 (amended): for every `ItemControl` with a non-empty item list,
assigning any integer through the `selected_index` setter stores the
clamped index and emits exactly one `ItemSelected` notification carrying
the item at the clamped index — regardless of whether the clamped result
differs from the previous selection. -/
theorem C2_setter_emits_on_every_assignment (s : ItemControlState) (v : Int)
    (hne : s.items ≠ []) :
    ∃ c item,
      ItemControl.clamp_index s v = some c ∧
      s.items.get? c.toNat = some item ∧
      (ItemControl.set_selected_index ItemControlMsg.mk s (some v)).state.selectedIndexAttr
        = some (some c) ∧
      (ItemControl.set_selected_index ItemControlMsg.mk s (some v)).outputs
        = [Output.itemSelected ⟨item⟩, Output.refresh] ∧
      countItemSelected
        (ItemControl.set_selected_index ItemControlMsg.mk s (some v)).outputs = 1 := by
  obtain ⟨c, item, hc, hc0, hcn, hitem, hset⟩ :=
    set_selected_index_nonempty ItemControlMsg.mk s v hne
  exact ⟨c, item, hc, hitem, by rw [hset], by rw [hset], by rw [hset]; rfl⟩

/-- C2 witness: the amended statement evaluated on items `["a", "b"]`,
current selection `1`, assigned value `7` (clamped to `1`). -/
theorem C2_witness :
    ∃ c item,
      ItemControl.clamp_index ⟨["a", "b"], some (some 1)⟩ 7 = some c ∧
      (["a", "b"] : List String).get? c.toNat = some item ∧
      (ItemControl.set_selected_index ItemControlMsg.mk
        ⟨["a", "b"], some (some 1)⟩ (some 7)).state.selectedIndexAttr
        = some (some c) ∧
      (ItemControl.set_selected_index ItemControlMsg.mk
        ⟨["a", "b"], some (some 1)⟩ (some 7)).outputs
        = [Output.itemSelected ⟨item⟩, Output.refresh] ∧
      countItemSelected
        (ItemControl.set_selected_index ItemControlMsg.mk
          ⟨["a", "b"], some (some 1)⟩ (some 7)).outputs = 1 :=
  C2_setter_emits_on_every_assignment ⟨["a", "b"], some (some 1)⟩ 7 (by decide)

/-- C4 counterexample: six items, content height `5`, scroll offset `0`,
current selection `3`.  `key_down` advances the selection to index `4`
but — contrary to the claim — issues no scroll-down request, because
`(4 - 0) % 5 = 4 ≠ 0`. -/
theorem C4_counterexample :
    (ItemControl.key_down ItemControlMsg.mk
        ⟨["a", "b", "c", "d", "e", "f"], some (some 3)⟩
        (some ⟨5, 0⟩)).state.selectedIndexAttr = some (some 4) ∧
    countScrollDown
      (ItemControl.key_down ItemControlMsg.mk
        ⟨["a", "b", "c", "d", "e", "f"], some (some 3)⟩
        (some ⟨5, 0⟩)).outputs = 0 := by
  constructor <;> rfl

/-- C4 (amended): with content height `5` and scroll offset `0` (seven
items, so all three advances stay in range), a `key_down` advancing the
selection to index `3` or to index `4` issues no scroll-down request,
while a `key_down` advancing it to index `5` issues exactly one, because
the code scrolls when `(new_index - scroll_offset) % content_height == 0`. -/
theorem C4_scroll_at_index_five :
    ((ItemControl.key_down ItemControlMsg.mk
        ⟨["a", "b", "c", "d", "e", "f", "g"], some (some 2)⟩
        (some ⟨5, 0⟩)).state.selectedIndexAttr = some (some 3) ∧
      countScrollDown
        (ItemControl.key_down ItemControlMsg.mk
          ⟨["a", "b", "c", "d", "e", "f", "g"], some (some 2)⟩
          (some ⟨5, 0⟩)).outputs = 0) ∧
    ((ItemControl.key_down ItemControlMsg.mk
        ⟨["a", "b", "c", "d", "e", "f", "g"], some (some 3)⟩
        (some ⟨5, 0⟩)).state.selectedIndexAttr = some (some 4) ∧
      countScrollDown
        (ItemControl.key_down ItemControlMsg.mk
          ⟨["a", "b", "c", "d", "e", "f", "g"], some (some 3)⟩
          (some ⟨5, 0⟩)).outputs = 0) ∧
    ((ItemControl.key_down ItemControlMsg.mk
        ⟨["a", "b", "c", "d", "e", "f", "g"], some (some 4)⟩
        (some ⟨5, 0⟩)).state.selectedIndexAttr = some (some 5) ∧
      countScrollDown
        (ItemControl.key_down ItemControlMsg.mk
          ⟨["a", "b", "c", "d", "e", "f", "g"], some (some 4)⟩
          (some ⟨5, 0⟩)).outputs = 1) := by
  refine ⟨⟨?_, ?_⟩, ⟨?_, ?_⟩, ⟨?_, ?_⟩⟩ <;> rfl

/-- C10: a freshly constructed `ItemControl` (`__init__` does not create
`_selected_index`) raises `AttributeError` when the `selected_index`
property is read, and `add_items` on such an unmounted widget fails with
`AttributeError` instead of initializing the selection (the item list is
extended before the failing read, but the selection attribute is never
created and no notification is emitted). -/
theorem C10_unmounted_widget_raises_AttributeError :
    ItemControl.selected_index ItemControl.init
      = Except.error PyErr.attributeError ∧
    ∀ newItems : List String,
      (ItemControl.add_items ItemControlMsg.mk ItemControl.init newItems).err
        = some PyErr.attributeError ∧
      (ItemControl.add_items ItemControlMsg.mk ItemControl.init
          newItems).state.selectedIndexAttr = none ∧
      countItemSelected
        (ItemControl.add_items ItemControlMsg.mk ItemControl.init
          newItems).outputs = 0 := by
  refine ⟨rfl, fun newItems => ⟨rfl, rfl, rfl⟩⟩

/-- C3: on a non-empty list with a parent viewport of positive content
height, `key_down` issues exactly one non-animated scroll-down request iff
`(new_index - scroll_offset) % content_height == 0` where `new_index` is
the clamped value of `selection + 1`, and `key_up` issues exactly one
non-animated scroll-up request iff
`(new_index + 1 - scroll_offset) % content_height == 0` where `new_index`
is the clamped value of `selection - 1`. -/
theorem C3_scroll_request_iff_mod_zero (s : ItemControlState) (i : Int)
    (vp : Viewport) (hne : s.items ≠ [])
    (hsel : s.selectedIndexAttr = some (some i))
    (hh : 0 < vp.contentHeight) :
    (∃ newIdx, ItemControl.clamp_index s (i + 1) = some newIdx ∧
      countScrollDown
        (ItemControl.key_down ItemControlMsg.mk s (some vp)).outputs
        = (if Int.fmod (newIdx - vp.scrollOffsetY) vp.contentHeight = 0
           then 1 else 0) ∧
      (ItemControl.key_down ItemControlMsg.mk s (some vp)).err = none) ∧
    (∃ newIdx, ItemControl.clamp_index s (i - 1) = some newIdx ∧
      countScrollUp
        (ItemControl.key_up ItemControlMsg.mk s (some vp)).outputs
        = (if Int.fmod (newIdx + 1 - vp.scrollOffsetY) vp.contentHeight = 0
           then 1 else 0) ∧
      (ItemControl.key_up ItemControlMsg.mk s (some vp)).err = none) := by
  obtain ⟨c, item, hc, hitem, heq⟩ :=
    key_down_nonempty ItemControlMsg.mk s i vp hne hsel (by omega)
  obtain ⟨c', item', hc', hitem', heq'⟩ :=
    key_up_nonempty ItemControlMsg.mk s i vp hne hsel (by omega)
  constructor
  · refine ⟨c, hc, ?_, ?_⟩
    · rw [heq]
      dsimp only
      rw [countScrollDown_append]
      split <;> simp [countScrollDown]
    · rw [heq]
  · refine ⟨c', hc', ?_, ?_⟩
    · rw [heq']
      dsimp only
      rw [countScrollUp_append]
      split <;> simp [countScrollUp]
    · rw [heq']

/-- C3 witness: five items, content height `5`, scroll offset `0`, current
selection `3`: `key_down` moves to index `4` with `(4-0) % 5 = 4 ≠ 0` (no
scroll request), `key_up` moves to index `2` with `(2+1-0) % 5 = 3 ≠ 0`. -/
theorem C3_witness :
    (∃ newIdx,
      ItemControl.clamp_index ⟨["a", "b", "c", "d", "e"], some (some 3)⟩ (3 + 1)
        = some newIdx ∧
      countScrollDown
        (ItemControl.key_down ItemControlMsg.mk
          ⟨["a", "b", "c", "d", "e"], some (some 3)⟩ (some ⟨5, 0⟩)).outputs
        = (if Int.fmod (newIdx - (0 : Int)) 5 = 0 then 1 else 0) ∧
      (ItemControl.key_down ItemControlMsg.mk
        ⟨["a", "b", "c", "d", "e"], some (some 3)⟩ (some ⟨5, 0⟩)).err = none) ∧
    (∃ newIdx,
      ItemControl.clamp_index ⟨["a", "b", "c", "d", "e"], some (some 3)⟩ (3 - 1)
        = some newIdx ∧
      countScrollUp
        (ItemControl.key_up ItemControlMsg.mk
          ⟨["a", "b", "c", "d", "e"], some (some 3)⟩ (some ⟨5, 0⟩)).outputs
        = (if Int.fmod (newIdx + 1 - (0 : Int)) 5 = 0 then 1 else 0) ∧
      (ItemControl.key_up ItemControlMsg.mk
        ⟨["a", "b", "c", "d", "e"], some (some 3)⟩ (some ⟨5, 0⟩)).err = none) :=
  C3_scroll_request_iff_mod_zero ⟨["a", "b", "c", "d", "e"], some (some 3)⟩ 3
    ⟨5, 0⟩ (by decide) rfl (by norm_num)

/-- Repeated `key_down` presses (the spec's "repeatedly invoking
select-next"), always with the same parent viewport reading. -/
def iterate_key_down {N : Type} (mk : String → N) (vp : Viewport) :
    Nat → ItemControlState → ItemControlState
  | 0, s => s
  | k + 1, s =>
    iterate_key_down mk vp k (ItemControl.key_down mk s (some vp)).state

/-- Repeated `key_up` presses. -/
def iterate_key_up {N : Type} (mk : String → N) (vp : Viewport) :
    Nat → ItemControlState → ItemControlState
  | 0, s => s
  | k + 1, s =>
    iterate_key_up mk vp k (ItemControl.key_up mk s (some vp)).state

lemma clamp_index_nonempty_succ (items : List String) (i : Int)
    (hne : items ≠ []) (h0 : 0 ≤ i) :
    ItemControl.clamp_index ⟨items, some (some i)⟩ (i + 1)
      = some (min (i + 1) ((items.length : Int) - 1)) := by
  have hlen : 0 < items.length := List.length_pos.mpr hne
  rw [clamp_index_nonempty _ _ hne,
    clamp_eq_max_min _ _ _ (by simp; omega)]
  dsimp only
  congr 1
  omega

lemma clamp_index_nonempty_pred (items : List String) (i : Int)
    (hne : items ≠ []) (h1 : i ≤ (items.length : Int) - 1) :
    ItemControl.clamp_index ⟨items, some (some i)⟩ (i - 1)
      = some (max (i - 1) 0) := by
  have hlen : 0 < items.length := List.length_pos.mpr hne
  rw [clamp_index_nonempty _ _ hne,
    clamp_eq_max_min _ _ _ (by simp; omega)]
  dsimp only
  congr 1
  omega

lemma iterate_key_down_sel {N : Type} (mk : String → N) (vp : Viewport)
    (items : List String) (hne : items ≠ []) :
    ∀ (k : Nat) (i : Int), 0 ≤ i → i ≤ (items.length : Int) - 1 →
      iterate_key_down mk vp k ⟨items, some (some i)⟩
        = ⟨items, some (some (min (i + k) ((items.length : Int) - 1)))⟩ := by
  intro k
  induction k with
  | zero =>
    intro i h0 h1
    have hmin : min (i + (0 : Nat)) ((items.length : Int) - 1) = i := by
      push_cast
      omega
    rw [hmin]
    rfl
  | succ k ih =>
    intro i h0 h1
    have hlen : 0 < items.length := List.length_pos.mpr hne
    have hstate :=
      key_down_state mk (⟨items, some (some i)⟩ : ItemControlState) i
        (some vp) rfl
    rw [clamp_index_nonempty_succ items i hne h0] at hstate
    show iterate_key_down mk vp k
        (ItemControl.key_down mk ⟨items, some (some i)⟩ (some vp)).state = _
    rw [hstate]
    have hstate' :
        ({ (⟨items, some (some i)⟩ : ItemControlState) with
            selectedIndexAttr :=
              some (some (min (i + 1) ((items.length : Int) - 1))) } :
          ItemControlState)
        = ⟨items, some (some (min (i + 1) ((items.length : Int) - 1)))⟩ := rfl
    rw [hstate',
      ih (min (i + 1) ((items.length : Int) - 1)) (by omega) (by omega)]
    have hmin : min (min (i + 1) ((items.length : Int) - 1) + (k : Nat))
        ((items.length : Int) - 1)
        = min (i + ((k + 1 : Nat) : Int)) ((items.length : Int) - 1) := by
      push_cast
      omega
    rw [hmin]

lemma iterate_key_up_sel {N : Type} (mk : String → N) (vp : Viewport)
    (items : List String) (hne : items ≠ []) :
    ∀ (k : Nat) (i : Int), 0 ≤ i → i ≤ (items.length : Int) - 1 →
      iterate_key_up mk vp k ⟨items, some (some i)⟩
        = ⟨items, some (some (max (i - k) 0))⟩ := by
  intro k
  induction k with
  | zero =>
    intro i h0 h1
    have hmax : max (i - (0 : Nat)) 0 = i := by
      push_cast
      omega
    rw [hmax]
    rfl
  | succ k ih =>
    intro i h0 h1
    have hlen : 0 < items.length := List.length_pos.mpr hne
    have hstate :=
      key_up_state mk (⟨items, some (some i)⟩ : ItemControlState) i
        (some vp) rfl
    rw [clamp_index_nonempty_pred items i hne h1] at hstate
    show iterate_key_up mk vp k
        (ItemControl.key_up mk ⟨items, some (some i)⟩ (some vp)).state = _
    rw [hstate]
    have hstate' :
        ({ (⟨items, some (some i)⟩ : ItemControlState) with
            selectedIndexAttr := some (some (max (i - 1) 0)) } :
          ItemControlState)
        = ⟨items, some (some (max (i - 1) 0))⟩ := rfl
    rw [hstate', ih (max (i - 1) 0) (by omega) (by omega)]
    have hmax : max (max (i - 1) 0 - (k : Nat)) 0
        = max (i - ((k + 1 : Nat) : Int)) 0 := by
      push_cast
      omega
    rw [hmax]

/-- C5: starting from selection `0` on a non-empty list of size `n`,
`n` `key_down` presses land on index `n-1` and one more press stays there
(no wraparound); starting from `n-1`, any `k ≥ n-1` `key_up` presses leave
the selection at `0`. -/
theorem C5_navigation_saturates (items : List String) (vp : Viewport)
    (hne : items ≠ []) :
    (iterate_key_down ItemControlMsg.mk vp items.length
        ⟨items, some (some 0)⟩).selectedIndexAttr
      = some (some ((items.length : Int) - 1)) ∧
    (iterate_key_down ItemControlMsg.mk vp (items.length + 1)
        ⟨items, some (some 0)⟩).selectedIndexAttr
      = some (some ((items.length : Int) - 1)) ∧
    ∀ k : Nat, items.length - 1 ≤ k →
      (iterate_key_up ItemControlMsg.mk vp k
          ⟨items, some (some ((items.length : Int) - 1))⟩).selectedIndexAttr
        = some (some 0) := by
  have hlen : 0 < items.length := List.length_pos.mpr hne
  refine ⟨?_, ?_, ?_⟩
  · rw [iterate_key_down_sel ItemControlMsg.mk vp items hne items.length 0
      le_rfl (by omega)]
    have : min ((0 : Int) + (items.length : Nat)) ((items.length : Int) - 1)
        = (items.length : Int) - 1 := by
      push_cast
      omega
    rw [this]
  · rw [iterate_key_down_sel ItemControlMsg.mk vp items hne
      (items.length + 1) 0 le_rfl (by omega)]
    have : min ((0 : Int) + ((items.length + 1 : Nat) : Int))
        ((items.length : Int) - 1) = (items.length : Int) - 1 := by
      push_cast
      omega
    rw [this]
  · intro k hk
    rw [iterate_key_up_sel ItemControlMsg.mk vp items hne k
      ((items.length : Int) - 1) (by omega) le_rfl]
    have : max ((items.length : Int) - 1 - (k : Nat)) 0 = 0 := by
      have : items.length - 1 ≤ k := hk
      push_cast
      omega
    rw [this]

/-- C5 witness: three items, content height `5`, scroll offset `0`: three
`key_down` presses from index `0` land on index `2`, a fourth stays there,
and four `key_up` presses from index `2` leave the selection at `0`. -/
theorem C5_witness :
    (iterate_key_down ItemControlMsg.mk ⟨5, 0⟩ 3
        ⟨["a", "b", "c"], some (some 0)⟩).selectedIndexAttr
      = some (some 2) ∧
    (iterate_key_down ItemControlMsg.mk ⟨5, 0⟩ 4
        ⟨["a", "b", "c"], some (some 0)⟩).selectedIndexAttr
      = some (some 2) ∧
    (iterate_key_up ItemControlMsg.mk ⟨5, 0⟩ 4
        ⟨["a", "b", "c"], some (some 2)⟩).selectedIndexAttr
      = some (some 0) := by
  have h := C5_navigation_saturates ["a", "b", "c"] ⟨5, 0⟩ (by decide)
  exact ⟨h.1, h.2.1, h.2.2 4 (by norm_num)⟩

lemma invariant_clamp_state (s : ItemControlState) (v : Int) :
    Invariant { s with selectedIndexAttr := some (ItemControl.clamp_index s v) } := by
  unfold Invariant ItemControl.clamp_index
  by_cases h : s.items.isEmpty
  · simp [h]
  · have hne : s.items ≠ [] := by simpa [List.isEmpty_iff] using h
    have hlen : 0 < s.items.length := List.length_pos.mpr hne
    have hb := clamp_bounds v 0 ((s.items.length : Int) - 1) (by omega)
    simp only [h, if_false, Bool.false_eq_true]
    exact ⟨clamp v 0 ((s.items.length : Int) - 1), rfl, hb.1, by omega⟩

lemma invariant_set_state {N : Type} (mk : String → N) (s : ItemControlState)
    (v : Int) :
    Invariant (ItemControl.set_selected_index mk s (some v)).state := by
  rw [set_selected_index_state]
  exact invariant_clamp_state s v

/-- `Invariant`, unpacked on an empty item list. -/
lemma invariant_empty (s : ItemControlState) (hInv : Invariant s)
    (h : s.items = []) : s.selectedIndexAttr = some none := by
  unfold Invariant at hInv
  simpa [h] using hInv

/-- `Invariant`, unpacked on a non-empty item list. -/
lemma invariant_nonempty (s : ItemControlState) (hInv : Invariant s)
    (h : s.items ≠ []) :
    ∃ i : Int, s.selectedIndexAttr = some (some i) ∧
      0 ≤ i ∧ i < (s.items.length : Int) := by
  unfold Invariant at hInv
  simpa [List.isEmpty_iff, h] using hInv

lemma invariant_add_items {N : Type} (mk : String → N) (s : ItemControlState)
    (newItems : List String) (hInv : Invariant s) :
    Invariant (ItemControl.add_items mk s newItems).state := by
  by_cases h : s.items = []
  · have hattr := invariant_empty s hInv h
    unfold ItemControl.add_items
    simp only [hattr]
    exact invariant_set_state mk _ 0
  · obtain ⟨i, hattr, hi0, hin⟩ := invariant_nonempty s hInv h
    unfold ItemControl.add_items
    simp only [hattr]
    unfold Invariant
    have hne : s.items ++ newItems ≠ [] := by
      simp [h]
    simp only [List.isEmpty_iff]
    simp only [hne, if_false]
    exact ⟨i, rfl, hi0, by simp; omega⟩

lemma invariant_key_down {N : Type} (mk : String → N) (s : ItemControlState)
    (parent : Option Viewport) (hInv : Invariant s) :
    Invariant (ItemControl.key_down mk s parent).state := by
  by_cases h : s.items = []
  · have hattr := invariant_empty s hInv h
    unfold ItemControl.key_down
    rw [hattr]
    exact hInv
  · obtain ⟨i, hattr, hi0, hin⟩ := invariant_nonempty s hInv h
    rw [key_down_state mk s i parent hattr]
    exact invariant_clamp_state s (i + 1)

lemma invariant_key_up {N : Type} (mk : String → N) (s : ItemControlState)
    (parent : Option Viewport) (hInv : Invariant s) :
    Invariant (ItemControl.key_up mk s parent).state := by
  by_cases h : s.items = []
  · have hattr := invariant_empty s hInv h
    unfold ItemControl.key_up
    rw [hattr]
    exact hInv
  · obtain ⟨i, hattr, hi0, hin⟩ := invariant_nonempty s hInv h
    rw [key_up_state mk s i parent hattr]
    exact invariant_clamp_state s (i - 1)

/-- C6: mounting establishes the state invariant (non-empty list ⇒ the
selection is an integer in `[0, count-1]`; empty list ⇒ the selection is
`None`), and every operation — `add_items`, the `selected_index` setter,
`key_down`, `key_up` — preserves it (operations that raise leave the
invariant intact as well). -/
theorem C6_invariant_preserved (s : ItemControlState) (hInv : Invariant s) :
    Invariant (ItemControl.on_mount ItemControlMsg.mk ItemControl.init).state ∧
    (∀ newItems : List String,
      Invariant (ItemControl.add_items ItemControlMsg.mk s newItems).state) ∧
    (∀ v : Option Int,
      Invariant (ItemControl.set_selected_index ItemControlMsg.mk s v).state) ∧
    (∀ parent : Option Viewport,
      Invariant (ItemControl.key_down ItemControlMsg.mk s parent).state) ∧
    (∀ parent : Option Viewport,
      Invariant (ItemControl.key_up ItemControlMsg.mk s parent).state) := by
  refine ⟨invariant_set_state _ _ 0, fun newItems =>
    invariant_add_items _ s newItems hInv, fun v => ?_, fun parent =>
    invariant_key_down _ s parent hInv, fun parent =>
    invariant_key_up _ s parent hInv⟩
  cases v with
  | none => exact hInv
  | some v => exact invariant_set_state _ s v

/-- C6 witness: the invariant holds for items `["a"]` with selection `0`
and is preserved by `add_items ["b"]`. -/
theorem C6_witness :
    Invariant (ItemControl.add_items ItemControlMsg.mk
      ⟨["a"], some (some 0)⟩ ["b"]).state :=
  (C6_invariant_preserved ⟨["a"], some (some 0)⟩
    ⟨0, rfl, le_rfl, by norm_num⟩).2.1 ["b"]

/-- Assigning index `0` through the setter on a non-empty list selects the
first item and emits its `ItemSelected` message. -/
lemma set_selected_index_zero {N : Type} (mk : String → N)
    (s : ItemControlState) (hne : s.items ≠ []) :
    ∃ first, s.items.get? 0 = some first ∧
      ItemControl.set_selected_index mk s (some 0)
        = ⟨{ s with selectedIndexAttr := some (some 0) },
           [Output.itemSelected (mk first), Output.refresh], none⟩ := by
  obtain ⟨c, item, hc, hc0, hcn, hitem, hset⟩ :=
    set_selected_index_nonempty mk s 0 hne
  have hlen : 0 < s.items.length := List.length_pos.mpr hne
  have hceq : c = 0 := by
    rw [clamp_index_nonempty _ _ hne,
      clamp_eq_max_min _ _ _ (by omega)] at hc
    injection hc with hc
    omega
  subst hceq
  exact ⟨item, by simpa using hitem, hset⟩

/-- C7: `add_items` with a non-empty batch appends the new items at the
end of the list in order; if the selection was `None` beforehand it is set
to index `0` and exactly one `ItemSelected` notification is emitted,
carrying the first item of the resulting list. -/
theorem C7_add_items_appends_and_initializes (s : ItemControlState)
    (cur : Option Int) (newItems : List String)
    (hattr : s.selectedIndexAttr = some cur) (hne : newItems ≠ []) :
    (ItemControl.add_items ItemControlMsg.mk s newItems).state.items
      = s.items ++ newItems ∧
    (cur = none →
      ∃ first, (s.items ++ newItems).get? 0 = some first ∧
        (ItemControl.add_items ItemControlMsg.mk s
            newItems).state.selectedIndexAttr = some (some 0) ∧
        (ItemControl.add_items ItemControlMsg.mk s newItems).outputs
          = [Output.itemSelected ⟨first⟩, Output.refresh] ∧
        countItemSelected
          (ItemControl.add_items ItemControlMsg.mk s newItems).outputs = 1 ∧
        (ItemControl.add_items ItemControlMsg.mk s newItems).err = none) := by
  cases cur with
  | some j =>
    unfold ItemControl.add_items
    simp [hattr]
  | none =>
    obtain ⟨items, attr⟩ := s
    dsimp only at hattr
    subst hattr
    have hne1 : ((⟨items ++ newItems, some none⟩ :
        ItemControlState)).items ≠ [] := by
      simp [hne]
    obtain ⟨first, hfirst, hset⟩ :=
      set_selected_index_zero ItemControlMsg.mk
        ⟨items ++ newItems, some none⟩ hne1
    unfold ItemControl.add_items
    dsimp only
    rw [hset]
    exact ⟨rfl, fun _ => ⟨first, hfirst, rfl, rfl, rfl, rfl⟩⟩

/-- C7 witness: the spec's own example — `add_items(["a","b","c"])` on a
mounted empty list appends the three items, sets the selection to `0` and
emits exactly one notification carrying `"a"`. -/
theorem C7_witness :
    (ItemControl.add_items ItemControlMsg.mk ⟨[], some none⟩
        ["a", "b", "c"]).state.items = [] ++ ["a", "b", "c"] ∧
    ∃ first, (([] : List String) ++ ["a", "b", "c"]).get? 0 = some first ∧
      (ItemControl.add_items ItemControlMsg.mk ⟨[], some none⟩
          ["a", "b", "c"]).state.selectedIndexAttr = some (some 0) ∧
      (ItemControl.add_items ItemControlMsg.mk ⟨[], some none⟩
          ["a", "b", "c"]).outputs
        = [Output.itemSelected ⟨first⟩, Output.refresh] ∧
      countItemSelected
        (ItemControl.add_items ItemControlMsg.mk ⟨[], some none⟩
          ["a", "b", "c"]).outputs = 1 ∧
      (ItemControl.add_items ItemControlMsg.mk ⟨[], some none⟩
        ["a", "b", "c"]).err = none := by
  have h := C7_add_items_appends_and_initializes ⟨[], some none⟩ none
    ["a", "b", "c"] rfl (by decide)
  exact ⟨h.1, h.2 rfl⟩

/-- C8: on any state satisfying the widget invariant, `add_items([])`
leaves the whole state (item list and selection) unchanged, emits no
`ItemSelected` notification, and raises no error. -/
theorem C8_add_items_nil_is_noop (s : ItemControlState) (hInv : Invariant s) :
    (ItemControl.add_items ItemControlMsg.mk s []).state = s ∧
    countItemSelected
      (ItemControl.add_items ItemControlMsg.mk s []).outputs = 0 ∧
    (ItemControl.add_items ItemControlMsg.mk s []).err = none := by
  by_cases h : s.items = []
  · have hattr := invariant_empty s hInv h
    obtain ⟨items, attr⟩ := s
    dsimp at h hattr
    subst h
    subst hattr
    exact ⟨rfl, rfl, rfl⟩
  · obtain ⟨i, hattr, hi0, hin⟩ := invariant_nonempty s hInv h
    obtain ⟨items, attr⟩ := s
    dsimp at hattr
    subst hattr
    unfold ItemControl.add_items
    refine ⟨?_, rfl, rfl⟩
    simp

/-- C8 witness: `add_items([])` on items `["a"]` with selection `0`. -/
theorem C8_witness :
    (ItemControl.add_items ItemControlMsg.mk
        ⟨["a"], some (some 0)⟩ []).state = ⟨["a"], some (some 0)⟩ ∧
    countItemSelected
      (ItemControl.add_items ItemControlMsg.mk
        ⟨["a"], some (some 0)⟩ []).outputs = 0 ∧
    (ItemControl.add_items ItemControlMsg.mk
      ⟨["a"], some (some 0)⟩ []).err = none :=
  C8_add_items_nil_is_noop ⟨["a"], some (some 0)⟩ ⟨0, rfl, le_rfl, by norm_num⟩

/-- One user-level event driving the widget. -/
inductive Event where
  | mount
  | addItems (items : List String)
  | setSelectedIndex (v : Option Int)
  | keyDown (parent : Option Viewport)
  | keyUp (parent : Option Viewport)

/-- Dispatch one event to the widget operations. -/
def step {N : Type} (mk : String → N) (s : ItemControlState) :
    Event → OpResult N
  | Event.mount => ItemControl.on_mount mk s
  | Event.addItems its => ItemControl.add_items mk s its
  | Event.setSelectedIndex v => ItemControl.set_selected_index mk s v
  | Event.keyDown p => ItemControl.key_down mk s p
  | Event.keyUp p => ItemControl.key_up mk s p

/-- Run a whole event sequence, collecting the final state, all outputs
and all raised exceptions in order. -/
def run {N : Type} (mk : String → N) (s : ItemControlState) :
    List Event → ItemControlState × List (Output N) × List PyErr
  | [] => (s, [], [])
  | e :: es =>
    let r := step mk s e
    let rest := run mk r.state es
    (rest.1, r.outputs ++ rest.2.1, r.err.toList ++ rest.2.2)

/-- Retag an output by translating the `ItemSelected` message type and
keeping every other effect unchanged. -/
def mapOutput {N M : Type} (f : N → M) : Output N → Output M
  | Output.itemSelected m => Output.itemSelected (f m)
  | Output.scrollDown a => Output.scrollDown a
  | Output.scrollUp a => Output.scrollUp a
  | Output.refresh => Output.refresh

lemma set_selected_index_map {N M : Type} (f : N → M) (mk : String → N)
    (mk2 : String → M) (hf : ∀ x, f (mk x) = mk2 x) (s : ItemControlState)
    (v : Option Int) :
    ItemControl.set_selected_index mk2 s v
      = ⟨(ItemControl.set_selected_index mk s v).state,
         ((ItemControl.set_selected_index mk s v).outputs).map (mapOutput f),
         (ItemControl.set_selected_index mk s v).err⟩ := by
  unfold ItemControl.set_selected_index
  cases v with
  | none => simp [mapOutput]
  | some v =>
    dsimp only
    cases hc : ItemControl.clamp_index s v with
    | none => simp [hc, mapOutput]
    | some c =>
      cases hp : pyGet s.items c <;> simp [hc, hp, mapOutput, hf]

lemma add_items_map {N M : Type} (f : N → M) (mk : String → N)
    (mk2 : String → M) (hf : ∀ x, f (mk x) = mk2 x) (s : ItemControlState)
    (newItems : List String) :
    ItemControl.add_items mk2 s newItems
      = ⟨(ItemControl.add_items mk s newItems).state,
         ((ItemControl.add_items mk s newItems).outputs).map (mapOutput f),
         (ItemControl.add_items mk s newItems).err⟩ := by
  unfold ItemControl.add_items
  dsimp only
  cases hattr : s.selectedIndexAttr with
  | none => simp
  | some o =>
    cases o with
    | none => exact set_selected_index_map f mk mk2 hf _ (some 0)
    | some j => simp

lemma key_down_map {N M : Type} (f : N → M) (mk : String → N)
    (mk2 : String → M) (hf : ∀ x, f (mk x) = mk2 x) (s : ItemControlState)
    (parent : Option Viewport) :
    ItemControl.key_down mk2 s parent
      = ⟨(ItemControl.key_down mk s parent).state,
         ((ItemControl.key_down mk s parent).outputs).map (mapOutput f),
         (ItemControl.key_down mk s parent).err⟩ := by
  unfold ItemControl.key_down
  cases hattr : s.selectedIndexAttr with
  | none => simp
  | some o =>
    cases o with
    | none => simp
    | some i =>
      dsimp only
      rw [set_selected_index_map f mk mk2 hf s (some (i + 1))]
      dsimp only
      cases herr : (ItemControl.set_selected_index mk s (some (i + 1))).err with
      | some e => simp
      | none =>
        cases parent with
        | none => simp
        | some vp =>
          cases hst : (ItemControl.set_selected_index mk s
              (some (i + 1))).state.selectedIndexAttr with
          | none => simp
          | some o2 =>
            cases o2 with
            | none => simp
            | some newIdx =>
              dsimp only
              split_ifs <;> simp [mapOutput]

lemma key_up_map {N M : Type} (f : N → M) (mk : String → N)
    (mk2 : String → M) (hf : ∀ x, f (mk x) = mk2 x) (s : ItemControlState)
    (parent : Option Viewport) :
    ItemControl.key_up mk2 s parent
      = ⟨(ItemControl.key_up mk s parent).state,
         ((ItemControl.key_up mk s parent).outputs).map (mapOutput f),
         (ItemControl.key_up mk s parent).err⟩ := by
  unfold ItemControl.key_up
  cases hattr : s.selectedIndexAttr with
  | none => simp
  | some o =>
    cases o with
    | none => simp
    | some i =>
      dsimp only
      rw [set_selected_index_map f mk mk2 hf s (some (i - 1))]
      dsimp only
      cases herr : (ItemControl.set_selected_index mk s (some (i - 1))).err with
      | some e => simp
      | none =>
        cases parent with
        | none => simp
        | some vp =>
          cases hst : (ItemControl.set_selected_index mk s
              (some (i - 1))).state.selectedIndexAttr with
          | none => simp
          | some o2 =>
            cases o2 with
            | none => simp
            | some newIdx =>
              dsimp only
              split_ifs <;> simp [mapOutput]

lemma step_map {N M : Type} (f : N → M) (mk : String → N)
    (mk2 : String → M) (hf : ∀ x, f (mk x) = mk2 x) (s : ItemControlState)
    (e : Event) :
    step mk2 s e
      = ⟨(step mk s e).state, ((step mk s e).outputs).map (mapOutput f),
         (step mk s e).err⟩ := by
  cases e with
  | mount => exact set_selected_index_map f mk mk2 hf s (some 0)
  | addItems its => exact add_items_map f mk mk2 hf s its
  | setSelectedIndex v => exact set_selected_index_map f mk mk2 hf s v
  | keyDown p => exact key_down_map f mk mk2 hf s p
  | keyUp p => exact key_up_map f mk mk2 hf s p

lemma run_map {N M : Type} (f : N → M) (mk : String → N)
    (mk2 : String → M) (hf : ∀ x, f (mk x) = mk2 x) (s : ItemControlState)
    (es : List Event) :
    run mk2 s es
      = ((run mk s es).1, ((run mk s es).2.1).map (mapOutput f),
         (run mk s es).2.2) := by
  induction es generalizing s with
  | nil => simp [run]
  | cons e es ih =>
    show run mk2 s (e :: es) = _
    rw [run, run]
    rw [step_map f mk mk2 hf s e]
    dsimp only
    rw [ih ((step mk s e).state)]
    simp

/-- C9: driven by any event sequence from any starting state, `EnvList`,
`ProfileList` and their parent `ItemControl` reach the same state (same
item list and selection, hence identical rendering data and content
height) and produce the same outputs in the same order up to the concrete
type of the `ItemSelected` message, which is the only difference. -/
theorem C9_env_profile_behaviorally_identical (s : ItemControlState)
    (es : List Event) :
    (run EnvListMsg.mk s es).1 = (run ItemControlMsg.mk s es).1 ∧
    (run ProfileListMsg.mk s es).1 = (run ItemControlMsg.mk s es).1 ∧
    (run EnvListMsg.mk s es).2.2 = (run ItemControlMsg.mk s es).2.2 ∧
    (run ProfileListMsg.mk s es).2.2 = (run ItemControlMsg.mk s es).2.2 ∧
    (run EnvListMsg.mk s es).2.1
      = ((run ItemControlMsg.mk s es).2.1).map
          (mapOutput fun m => EnvListMsg.mk m.item) ∧
    (run ProfileListMsg.mk s es).2.1
      = ((run ItemControlMsg.mk s es).2.1).map
          (mapOutput fun m => ProfileListMsg.mk m.item) ∧
    ItemControl.render (run EnvListMsg.mk s es).1
      = ItemControl.render (run ProfileListMsg.mk s es).1 ∧
    ∀ containerHeight,
      ItemControl.get_content_height (run EnvListMsg.mk s es).1 containerHeight
        = ItemControl.get_content_height (run ProfileListMsg.mk s es).1
            containerHeight := by
  have henv := run_map (fun m : ItemControlMsg => EnvListMsg.mk m.item)
    ItemControlMsg.mk EnvListMsg.mk (fun _ => rfl) s es
  have hprof := run_map (fun m : ItemControlMsg => ProfileListMsg.mk m.item)
    ItemControlMsg.mk ProfileListMsg.mk (fun _ => rfl) s es
  refine ⟨by rw [henv], by rw [hprof], by rw [henv], by rw [hprof],
    by rw [henv], by rw [hprof], by rw [henv, hprof], fun ch => by
      rw [henv, hprof]⟩
